import Mathlib

/-!
# Verification of shellby (src/shellby/shell.py, src/shellby/result.py)

A shallow embedding of the shellby shell-execution library together with
proofs about the claims of its specification.

Conventions of the embedding:
* Python strings are Lean `String`s; Python `bytes` values are `List Nat`.
* Python `None`-able parameters become `Option` values.  Python truthiness of
  a string/bytes value (`if directory:`, `if stdin:`) is modelled explicitly
  as a non-emptiness test where the source relies on it.
* Side effects on the display (every `OutputHandler.print` call, i.e. every
  sink invocation) are modelled as values of an `Event` type collected into
  lists, in program order.
* Fallible operations return `Except`.
-/

namespace Shellby

/-! ## ANSI colour helpers

`shell.py` imports `green`, `white`, `red` from `shellby.ansi`, a module that
is not part of the sources under verification.  Modelled from the spec:
"terminal color formatting (a pure string-decoration helper)", "Global ANSI
color helpers: treated as pure, stateless formatting functions".  We model
them as the identity decoration; no claim below depends on the decoration
itself, only on which sink invocations happen and on their undecorated
payload. -/

/-- Modelled from the spec: `shellby.ansi.white`, a pure string decoration
(the module `shellby/ansi.py` is not among the sources). -/
def white (s : String) : String := s

/-- Modelled from the spec: `shellby.ansi.green`, a pure string decoration. -/
def green (s : String) : String := s

/-- Modelled from the spec: `shellby.ansi.red`, a pure string decoration. -/
def red (s : String) : String := s

/-- `BOLD_CHECKMARK = "✔"` -/
def BOLD_CHECKMARK : String := "✔"

/-- `BOLD_CROSS = "✘"` -/
def BOLD_CROSS : String := "✘"

/-! ## `shlex.quote`

`quote` in `shell.py` delegates to the standard library's `shlex.quote`:

```python
_find_unsafe = re.compile(of the character class not [\w @ % + = : , . / -], ASCII).search
def quote(s):
    if not s:
        return "''"
    if _find_unsafe(s) is None:
        return s
    return "'" + s.replace("'", "'\"'\"'") + "'"
```
-/

/-- The characters `shlex._find_unsafe` treats as safe: ASCII `\w`
(letters, digits, underscore) together with `@ % + = : , . / -`. -/
def shlexSafeChar (c : Char) : Bool :=
  c.isAlpha || c.isDigit || c = '_' || c = '@' || c = '%' || c = '+' ||
    c = '=' || c = ':' || c = ',' || c = '.' || c = '/' || c = '-'

/-- `s.replace("'", "'\"'\"'")` for the one-character needle `'`:
character-by-character substitution. -/
def shlexEscapeQuote (l : List Char) : List Char :=
  match l with
  | [] => []
  | c :: rest =>
    if c = '\'' then '\'' :: '"' :: '\'' :: '"' :: '\'' :: shlexEscapeQuote rest
    else c :: shlexEscapeQuote rest

/-- `shlex.quote(s)` for a `str` argument. -/
def shlexQuote (s : String) : String :=
  if s.data = [] then "''"
  else if s.data.all shlexSafeChar then s
  else "'" ++ String.mk (shlexEscapeQuote s.data) ++ "'"

/-! ## `quote` and `join_command`

```python
def quote(value: Union[str, Path]) -> str:
    if isinstance(value, Path):
        return shlex.quote(str(value))
    elif type(value) in (bytes, str):
        return shlex.quote(value)
    else:
        raise Exception("Invalid command line argument type: %s" % type(value))
```

The dynamic typing is embedded as an inductive of the possible runtime
classes of the argument.  `other` stands for any value that is neither
`str`, `bytes` nor `Path` (e.g. `int`, `None`, `list`).

Note the `bytes` case: `type(value) in (bytes, str)` succeeds, so the
"Invalid command line argument type" error is *not* raised; instead
`shlex.quote` receives a `bytes` object.  There `if not s` returns `"''"`
for empty bytes, while for non-empty bytes `_find_unsafe(s)` applies a
`str` regular expression to a `bytes` object and raises
`TypeError: cannot use a string pattern on a bytes-like object`. -/

/-- Runtime classification of an argument handed to `quote`. -/
inductive Value where
  | str (s : String)
  | bytes (b : List Nat)
  | path (p : String)
  | other
deriving DecidableEq, Repr

/-- The ways `quote` can fail. -/
inductive QuoteError where
  /-- the `raise Exception("Invalid command line argument type: ...")` branch -/
  | invalidArgumentType
  /-- the `TypeError` raised inside `shlex.quote` on a non-empty `bytes` -/
  | typeError
deriving DecidableEq, Repr

/-- `quote(value)` from `shell.py`. -/
def quote : Value → Except QuoteError String
  | .path p => .ok (shlexQuote p)
  | .str s => .ok (shlexQuote s)
  | .bytes b =>
    -- shlex.quote(b): `if not s` handles b"" first; otherwise the regex
    -- search on bytes raises TypeError.
    if b = [] then .ok "''" else .error .typeError
  | .other => .error .invalidArgumentType

/-- `join_command(args)`: `" ".join([quote(arg) for arg in args])`; the first
failing `quote` aborts the whole call. -/
def join_command (args : List Value) : Except QuoteError String := do
  let parts ← args.mapM quote
  return String.intercalate " " parts

/-! ## `Command`

```python
class Command:
    def __init__(self, command, *, user=None, directory=None):
        if type(command) in (list, tuple):
            command = join_command(command)
        self.directory = directory
        self.user = user
        self.string = command
        self.full = command
        if directory:
            self.full = "cd %s && (%s)" % (quote(directory), self.full)
        self.full = ["bash", "-c", self.full]
        if user is not None:
            self.full = ["sudo", "--user=%s" % user, "--login"] + self.full
        self.full_string = " ".join([quote(arg) for arg in self.full])
```
-/

structure Command where
  string : String
  user : Option String
  directory : Option String
  /-- the invocation argument vector -/
  full : List String
  /-- `" ".join([quote(arg) for arg in self.full])` -/
  full_string : String
deriving DecidableEq, Repr

/-- The body of `Command.__init__` once `command` is a `str`.
`if directory:` is Python truthiness: an empty directory string is falsy and
skips the `cd` wrapping. -/
def Command.make (command : String) (user : Option String)
    (directory : Option String) : Command :=
  let full₀ : String :=
    match directory with
    | some d =>
      if d.data = [] then command
      else "cd " ++ shlexQuote d ++ " && (" ++ command ++ ")"
    | none => command
  let full₁ : List String := ["bash", "-c", full₀]
  let full₂ : List String :=
    match user with
    | some u => ["sudo", "--user=" ++ u, "--login"] ++ full₁
    | none => full₁
  { string := command
    user := user
    directory := directory
    full := full₂
    full_string := String.intercalate " " (full₂.map shlexQuote) }

/-! ## `OutputHandler`

`OutputHandler.print` is the single sink primitive; every display effect of
the handler goes through it:

```python
def print(self, string, symbol=":"):
    print("%s%s %s" % (self.name if self.name else "", symbol, string),
          file=sys.stderr)
```

We model one sink invocation as an `Event` recording the `symbol` and
`string` arguments of the `print` call (the handler's `name` is a constant
prefix per invocation and is omitted from the event). -/

/-- One sink invocation: a call to `OutputHandler.print(string, symbol)`. -/
structure Event where
  symbol : String
  text : String
deriving DecidableEq, Repr

/-- Python `str.strip()` / `str.rstrip()` whitespace, restricted to the ASCII
whitespace characters (the streams are produced by `bytes.decode("utf-8")`,
and the claims only involve ASCII text). -/
def pyWhitespace (c : Char) : Bool :=
  c = ' ' || c = '\t' || c = '\n' || c = '\r' || c = '\x0b' || c = '\x0c'

/-- `not line.strip()`: the line is empty or whitespace-only. -/
def pyIsBlank (s : String) : Bool := s.data.all pyWhitespace

/-- `line.rstrip()`: drop trailing whitespace. -/
def pyRstrip (s : String) : String :=
  String.mk ((s.data.reverse.dropWhile pyWhitespace).reverse)

/-! ### `OutputHandler._tail_stream`

```python
async def _tail_stream(self, symbol, stream):
    if stream is None:
        return None
    line = True
    captured = []
    empty_lines = 0
    while line:
        line_data = await stream.readline()
        line = line_data.decode("utf-8")
        if self.capture:
            captured.append(line)
        if not line.strip():
            empty_lines += 1
        else:
            for index in range(empty_lines):
                self.print("", symbol=symbol)
            self.print(line.rstrip(), symbol=symbol)
            empty_lines = 0
    return "".join(captured) if self.capture else None
```

The stream is modelled by the list of non-empty chunks successive
`readline()` calls return before end-of-stream (each chunk is the decoded
text of one line, line terminator included, except possibly the last chunk
which may lack a terminator).  The final `readline()` returning `b""` —
which appends `""` to `captured` (a no-op for the final `"".join`),
increments `empty_lines`, and ends the loop with the counter discarded — is
the base case of the recursion. -/

/-- The loop of `_tail_stream`, carrying the `empty_lines` counter.  Returns
the concatenation of all chunks (what `"".join(captured)` yields when
capture is on) together with the list of sink invocations, in order. -/
def tailLoop (symbol : String) : List String → Nat → String × List Event
  | [], _ => ("", [])
  | line :: rest, emptyLines =>
    if pyIsBlank line then
      (line ++ (tailLoop symbol rest (emptyLines + 1)).1,
        (tailLoop symbol rest (emptyLines + 1)).2)
    else
      (line ++ (tailLoop symbol rest 0).1,
        List.replicate emptyLines ⟨symbol, ""⟩ ++
          ⟨symbol, pyRstrip line⟩ :: (tailLoop symbol rest 0).2)

/-- `_tail_stream(symbol, stream)` for a connected stream: the returned
capture (`None` when capture is disabled) and the sink invocations it
makes. -/
def tail_stream (capture : Bool) (symbol : String) (chunks : List String) :
    Option String × List Event :=
  (if capture then some (tailLoop symbol chunks 0).1 else none,
    (tailLoop symbol chunks 0).2)

/-- The chunks `readline()` produces from a stream whose full decoded
content is `s`: split after every `'\n'`; a final piece without a
terminator is returned as-is. -/
def readlineChunks (s : String) : List String :=
  (go s.data []).map String.mk
where
  go : List Char → List Char → List (List Char)
    | [], [] => []
    | [], acc => [acc.reverse]
    | c :: rest, acc =>
      if c = '\n' then (acc.reverse ++ ['\n']) :: go rest []
      else go rest (c :: acc)

/-! ### Handler lifecycle

```python
def open(self):
    if not self.quiet:
        self.print(
            white(self.command.string),
            symbol="#" if self.user == "root" else "$",
        )
    return (subprocess.PIPE, subprocess.PIPE)

def close(self, return_code):
    if self.quiet:
        return
    symbol = white(
        "[" + (green(BOLD_CHECKMARK) if return_code == 0 else red(BOLD_CROSS)) + "]"
    )
    if return_code == 0:
        self.print("", symbol=symbol)
    else:
        self.print("exit with %d" % return_code)
```

Note that in `close` the computed `symbol` is only used in the zero branch;
the non-zero branch calls `print` with the default symbol `":"`. -/

/-- Sink invocations of `OutputHandler.open` (the announce banner). -/
def openEvents (quiet : Bool) (commandString : String) (user : Option String) :
    List Event :=
  if quiet then []
  else [⟨if user = some "root" then "#" else "$", white commandString⟩]

/-- Sink invocations of `OutputHandler.close` (the finish message). -/
def closeEvents (quiet : Bool) (returnCode : Int) : List Event :=
  if quiet then []
  else if returnCode = 0 then [⟨white ("[" ++ green BOLD_CHECKMARK ++ "]"), ""⟩]
  else [⟨":", "exit with " ++ toString returnCode⟩]

/-! ### `OutputHandler.collect`

```python
async def collect(self, stdout_stream, stderr_stream):
    if not self.display:
        return await asyncio.gather(
            self._read_encoded(stdout_stream), self._read_encoded(stderr_stream)
        )
    return await asyncio.gather(
        self._tail_stream(">", stdout_stream),
        self._tail_stream(">", stderr_stream),
    )
```

`_read_encoded` performs no `print` call; in display mode both tailers use
the symbol `">"`.  The interleaving of the two tailers' events on the shared
sink is unspecified; we record them stdout-first, which is event-count and
per-stream-order faithful (every claim below depends only on those). -/

/-- Sink invocations of `OutputHandler.collect` for the decoded stream
contents `outText` and `errText`. -/
def collectEvents (display : Bool) (outText errText : String) : List Event :=
  if display then
    (tail_stream true ">" (readlineChunks outText)).2 ++
      (tail_stream true ">" (readlineChunks errText)).2
  else []

/-- The captured text `collect` returns for one stream (capture is on in
both modes of the source handler built by `bash_async`; in non-display mode
`_read_encoded` returns the whole decoded stream). -/
def collectCapture (display : Bool) (text : String) : Option String :=
  if display then (tail_stream true ">" (readlineChunks text)).1
  else some text

/-- All sink invocations of one `bash_async` run that reaches `close`:
`open`, then `collect`, then `close(returncode)`. -/
def handlerEvents (quiet display : Bool) (commandString : String)
    (user : Option String) (outText errText : String) (returnCode : Int) :
    List Event :=
  openEvents quiet commandString user ++
    collectEvents display outText errText ++
    closeEvents quiet returnCode

/-! ## `ShellResult` and `ShellException`

```python
@dataclass
class ShellResult:
    returncode: int
    stdout: Union[str, bytes]
    stderr: Union[str, bytes]

class ShellException(Exception):
    def __init__(self, result: ShellResult):
        super().__init__("Process exit with code %d" % result.returncode)
```

`ShellException.__init__` receives the `ShellResult` but stores nothing of
it on the exception object: the only state the raised exception carries is
the `Exception` message built from `result.returncode`.  In particular the
captured stream texts are unreachable from a caught exception. -/

structure ShellResult where
  returncode : Int
  stdout : Option String
  stderr : Option String
deriving DecidableEq, Repr

/-- `result.code` (property alias). -/
def ShellResult.code (r : ShellResult) : Int := r.returncode

/-- The state of a raised `ShellException`: exactly the `Exception` message
set by `super().__init__`. -/
structure ShellException where
  message : String
deriving DecidableEq, Repr

/-- `ShellException(result)`. -/
def ShellException.make (result : ShellResult) : ShellException :=
  ⟨"Process exit with code " ++ toString result.returncode⟩

/-! ## `bash_async`

```python
async def bash_async(command, *, output=None, name=None, tty=None, user=None,
                     stdin=None, cwd=None, check=True, display=True, quiet=False):
    assert type(stdin) in (type(None), bytes, str), "restrictions for now"
    command = Command(command)
    if output is None:
        output = OutputHandler(command=command, name=name, display=display, quiet=quiet)
    if type(stdin) is str:
        stdin = stdin.encode("utf-8")
    (stdout, stderr) = output.open()
    proc = await asyncio.create_subprocess_shell(
        command.full_string,
        stdin=subprocess.PIPE if stdin else None,
        stdout=stdout, stderr=stderr,
        cwd=Path(cwd).expanduser() if cwd else None,
    )
    collect_promise = output.collect(proc.stdout, proc.stderr)
    if stdin:
        proc.stdin.write(stdin)
        await proc.stdin.drain()
        proc.stdin.close()
    (stdout, stderr) = await collect_promise
    await proc.wait()
    output.close(proc.returncode)
    result = ShellResult(proc.returncode, stdout, stderr)
    if check and result.returncode != 0:
        raise ShellException(result)
    return result
```
-/

set_option linter.unusedVariables false in
/-- The `Command` object `bash_async` builds for a `str` command: note the
source calls `Command(command)` — the `user` (and `cwd`) arguments of
`bash_async` are *not* forwarded to the `Command` constructor, so the built
command always has `user=None`, `directory=None`.  The unused `user`
parameter is kept to mirror the entry point's signature. -/
def bashAsyncCommand (command : String) (user : Option String) : Command :=
  Command.make command none none

/-- The stdin payload accepted by `bash_async` (`assert type(stdin) in
(type(None), bytes, str)`). -/
inductive StdinPayload where
  /-- `stdin=None` -/
  | absent
  /-- a `bytes` payload -/
  | bytes (b : List Nat)
  /-- a `str` payload -/
  | str (s : String)
deriving DecidableEq, Repr

/-- `if type(stdin) is str: stdin = stdin.encode("utf-8")` — after this
step stdin is `None` or `bytes`.  The UTF-8 encoding of a string is the
concatenation of the UTF-8 encodings of its characters (this is how
`String.toUTF8` is defined; we use the per-character encoder directly so
the definition reduces). -/
def StdinPayload.encoded : StdinPayload → Option (List Nat)
  | .absent => none
  | .bytes b => some b
  | .str s => some ((s.data.flatMap String.utf8EncodeChar).map UInt8.toNat)

/-- How the child's stdin is set up and fed, as observable at the spawn
boundary: whether a pipe is connected (`stdin=subprocess.PIPE if stdin else
None` — Python truthiness, so empty bytes connect no pipe) and the bytes
written to it (`if stdin: write/drain/close` — same truthiness, so nothing
is written or closed for an empty payload). -/
structure StdinSetup where
  pipeConnected : Bool
  written : Option (List Nat)
deriving DecidableEq, Repr

/-- The stdin configuration `bash_async` produces for a payload. -/
def stdinSetup (stdin : StdinPayload) : StdinSetup :=
  match stdin.encoded with
  | none => ⟨false, none⟩
  | some b => if b = [] then ⟨false, none⟩ else ⟨true, some b⟩

/-- The final step of `bash_async`: build the `ShellResult` and apply the
`check` policy (`if check and result.returncode != 0: raise
ShellException(result)`). -/
def finishRun (check : Bool) (returncode : Int) (stdout stderr : Option String) :
    Except ShellException ShellResult :=
  let result : ShellResult := ⟨returncode, stdout, stderr⟩
  if check ∧ result.returncode ≠ 0 then .error (ShellException.make result)
  else .ok result

/-! ### Execution order of `bash_async`

`collect_promise = output.collect(proc.stdout, proc.stderr)` calls an
`async def` function without wrapping it in a task: in asyncio this only
creates a suspended coroutine object — none of its body runs until
`await collect_promise`.  Consequently the source's order of operations
after the spawn is strictly sequential:

1. write the whole stdin payload, `await proc.stdin.drain()` (wait until the
   OS pipe accepts it), close stdin;
2. only then `await collect_promise`, which is when the first
   `stream.readline()` on stdout/stderr is issued;
3. `await proc.wait()`.

We record this order as a trace of events. -/

/-- Milestones of one `bash_async` run, in the order the coroutine reaches
them. -/
inductive RunEvent where
  /-- the child process is spawned -/
  | spawn
  /-- `proc.stdin.write(stdin)` -/
  | stdinWrite
  /-- `await proc.stdin.drain()` returns -/
  | stdinDrain
  /-- `proc.stdin.close()` -/
  | stdinClose
  /-- the first `readline()` of the stdout/stderr drains is issued
  (the `collect` coroutine starts running) -/
  | drainStart
  /-- both drains reach end-of-stream (`await collect_promise` returns) -/
  | drainDone
  /-- `await proc.wait()` returns -/
  | procWait
deriving DecidableEq, Repr

/-- The trace of `bash_async` after the spawn, for a run whose stdin setup
is `s`: the stdin write happens (when a pipe is connected) strictly before
the collect coroutine first runs, because `collect_promise` is a bare
coroutine that is only awaited after the `if stdin:` block. -/
def bashAsyncTrace (s : StdinSetup) : List RunEvent :=
  [.spawn] ++
    (if s.pipeConnected then [.stdinWrite, .stdinDrain, .stdinClose] else []) ++
    [.drainStart, .drainDone, .procWait]

/-! ## Spec-side models

Definitions in this section formalize the *specification's* wording, to be
compared with the embedded source functions above. -/

/-- Quoting state of a POSIX shell scanning a word. -/
inductive QState where
  | normal
  | single
  | double
deriving DecidableEq, Repr

/-- POSIX shell word evaluation (quote removal), the spec-side reading of
"safe to splice into a shell command line verbatim": `'…'` makes every
enclosed character literal, `"…"` makes `'` literal; unbalanced quotes fail.
Characters that are special to a shell when unquoted (whitespace, `$`,
backquote, `\`, `;`, …) never occur unquoted in the output of `shlexQuote`,
so treating remaining unquoted characters as literal is faithful for the
round-trip property below. -/
def evalWordAux : QState → List Char → Option (List Char)
  | .normal, [] => some []
  | .single, [] => none
  | .double, [] => none
  | .normal, c :: rest =>
    if c = '\'' then evalWordAux .single rest
    else if c = '"' then evalWordAux .double rest
    else (evalWordAux .normal rest).map (c :: ·)
  | .single, c :: rest =>
    if c = '\'' then evalWordAux .normal rest
    else (evalWordAux .single rest).map (c :: ·)
  | .double, c :: rest =>
    if c = '"' then evalWordAux .normal rest
    else (evalWordAux .double rest).map (c :: ·)

/-- The text a POSIX shell sees for one quoted word. -/
def evalWord (w : String) : Option String :=
  (evalWordAux .normal w.data).map String.mk

/-- Spec-side: "Trailing blank lines at end-of-stream are never flushed" —
the stream's chunks with every trailing blank chunk removed. -/
def dropTrailingBlanks : List String → List String
  | [] => []
  | c :: rest =>
    let r := dropTrailingBlanks rest
    if pyIsBlank c ∧ r = [] then [] else c :: r

/-- Spec-side description of the live display of one stream (§4.3): every
chunk up to the last non-blank one produces exactly one sink invocation —
a blank `line("")` for a blank chunk, `line(strippedText)` for a non-blank
chunk — and trailing blank chunks produce nothing. -/
def displaySpec (symbol : String) (chunks : List String) : List Event :=
  (dropTrailingBlanks chunks).map fun c =>
    if pyIsBlank c then ⟨symbol, ""⟩ else ⟨symbol, pyRstrip c⟩

/-! ## Helper lemmas -/

/-- The accumulated capture of the tail loop is the concatenation of all
chunks, independently of the blank-line counter. -/
theorem tailLoop_fst_data (symbol : String) (chunks : List String) :
    ∀ n, ((tailLoop symbol chunks n).1).data =
      (chunks.map String.data).foldr (· ++ ·) [] := by
  induction chunks with
  | nil => intro n; rfl
  | cons c rest ih =>
    intro n
    simp only [tailLoop, List.map_cons, List.foldr_cons]
    split
    · simp [String.data_append, ih]
    · simp [String.data_append, ih]

/-- `readline` chunking, concatenated back, restores the stream text. -/
theorem readlineChunks_go_flatten (l : List Char) :
    ∀ acc, ((readlineChunks.go l acc).foldr (· ++ ·) []) = acc.reverse ++ l := by
  induction l with
  | nil =>
    intro acc
    cases acc with
    | nil => rfl
    | cons a as => simp [readlineChunks.go]
  | cons c rest ih =>
    intro acc
    by_cases hc : c = '\n'
    · subst hc
      simp [readlineChunks.go, ih]
    · simp [readlineChunks.go, hc, ih]

/-- `dropTrailingBlanks` on a cons whose head is blank. -/
theorem dropTrailingBlanks_cons_blank (c : String) (rest : List String)
    (h : pyIsBlank c = true) :
    dropTrailingBlanks (c :: rest) =
      if dropTrailingBlanks rest = [] then [] else c :: dropTrailingBlanks rest := by
  simp [dropTrailingBlanks, h]

/-- `dropTrailingBlanks` on a cons whose head is non-blank. -/
theorem dropTrailingBlanks_cons_nonblank (c : String) (rest : List String)
    (h : pyIsBlank c = false) :
    dropTrailingBlanks (c :: rest) = c :: dropTrailingBlanks rest := by
  simp [dropTrailingBlanks, h]

/-- The sink invocations of the tail loop: nothing if everything left is
(trailing) blank; otherwise the pending blanks are flushed followed by the
spec-side display of the chunks. -/
theorem tailLoop_snd (symbol : String) (chunks : List String) :
    ∀ n, (tailLoop symbol chunks n).2 =
      if dropTrailingBlanks chunks = [] then []
      else List.replicate n ⟨symbol, ""⟩ ++ displaySpec symbol chunks := by
  induction chunks with
  | nil => intro n; simp [tailLoop, dropTrailingBlanks]
  | cons c rest ih =>
    intro n
    by_cases hb : pyIsBlank c
    · rw [dropTrailingBlanks_cons_blank c rest hb]
      simp only [tailLoop, if_pos hb]
      rw [ih (n + 1)]
      by_cases hr : dropTrailingBlanks rest = []
      · simp [hr]
      · simp only [hr, if_neg hr, ite_false]
        simp only [displaySpec, dropTrailingBlanks_cons_blank c rest hb, if_neg hr,
          List.map_cons, hb, ite_true]
        rw [List.replicate_succ' ]
        simp [hr]
    · have hnb : pyIsBlank c = false := by simpa using hb
      have hcons : dropTrailingBlanks (c :: rest) = c :: dropTrailingBlanks rest :=
        dropTrailingBlanks_cons_nonblank c rest hnb
      rw [hcons]
      simp only [tailLoop, if_neg hb]
      rw [ih 0]
      rw [if_neg (List.cons_ne_nil c (dropTrailingBlanks rest))]
      simp only [displaySpec, hcons, List.map_cons, hnb, List.replicate_zero,
        List.nil_append, Bool.false_eq_true, ite_false]
      by_cases hr : dropTrailingBlanks rest = []
      · simp [hr]
      · simp [hr]

/-- Safe characters evaluate to themselves outside quotes. -/
theorem evalWordAux_safe (l : List Char) (h : l.all shlexSafeChar = true) :
    evalWordAux .normal l = some l := by
  induction l with
  | nil => rfl
  | cons c rest ih =>
    simp only [List.all_cons, Bool.and_eq_true] at h
    obtain ⟨hc, hrest⟩ := h
    have h1 : ¬(c = '\'') := fun he => by rw [he] at hc; exact absurd hc (by decide)
    have h2 : ¬(c = '"') := fun he => by rw [he] at hc; exact absurd hc (by decide)
    simp [evalWordAux, h1, h2, ih hrest]

/-- Inside single quotes, the `shlex` escaping of a text followed by the
closing quote evaluates back to that text. -/
theorem evalWordAux_escape (l : List Char) :
    evalWordAux .single (shlexEscapeQuote l ++ ['\'']) = some l := by
  induction l with
  | nil => rfl
  | cons c rest ih =>
    by_cases hc : c = '\''
    · subst hc
      simp only [shlexEscapeQuote, if_pos rfl, List.cons_append]
      simp [evalWordAux, ih]
    · simp only [shlexEscapeQuote, if_neg hc, List.cons_append]
      simp [evalWordAux, hc, ih]

/-- Round trip: shell evaluation of `shlex.quote(s)` recovers `s`. -/
theorem evalWord_shlexQuote (s : String) : evalWord (shlexQuote s) = some s := by
  rw [shlexQuote]
  by_cases h0 : s.data = []
  · rw [if_pos h0]
    have hs : s = "" := String.ext h0
    subst hs
    rfl
  · rw [if_neg h0]
    by_cases hsafe : s.data.all shlexSafeChar
    · rw [if_pos hsafe]
      unfold evalWord
      rw [evalWordAux_safe s.data hsafe]
      rfl
    · rw [if_neg hsafe]
      unfold evalWord
      have hdata : ("'" ++ String.mk (shlexEscapeQuote s.data) ++ "'").data
          = '\'' :: (shlexEscapeQuote s.data ++ ['\'']) := by
        simp [String.data_append]
      rw [hdata]
      simp [evalWordAux, evalWordAux_escape]

/-! ## Claim theorems -/

/-- C1, counterexample: two runs that exit with code 7 but captured
different stream texts raise *identical* `ShellException` values — the
captured output is not carried by (and cannot be recovered from) the raised
error, contradicting the claim that the error carries the full result. -/
theorem C1_counterexample_result_not_carried :
    ShellException.make ⟨7, some "partial", some ""⟩ =
      ShellException.make ⟨7, none, none⟩ ∧
    (⟨7, some "partial", some ""⟩ : ShellResult) ≠
      (⟨7, none, none⟩ : ShellResult) := by
  exact ⟨rfl, by decide⟩

/-- C1, amended: when `check` is enabled and the exit code is non-zero the
raised `ShellException` carries only its message, which records the exit
code; the captured stream texts are not attached to the error — errors of
results differing only in captured output are equal, and the message is a
pure function of the exit code. -/
theorem C1_exception_message_only :
    (∀ (rc : Int) (so so' se se' : Option String),
        ShellException.make ⟨rc, so, se⟩ = ShellException.make ⟨rc, so', se'⟩) ∧
    (∀ r : ShellResult,
        (ShellException.make r).message =
          "Process exit with code " ++ toString r.returncode) :=
  ⟨fun _ _ _ _ _ => rfl, fun _ => rfl⟩

/-- C2, counterexample: a run with `quiet=True` (and the default
`display=True`) whose child writes `"a\n"` to stdout still produces a sink
invocation for that line — `quiet` does not suppress the per-line output of
`_tail_stream`, so the sink-invocation count is not zero. -/
theorem C2_counterexample_quiet_still_prints :
    handlerEvents true true "exit 3" none "a\n" "" 3 = [⟨">", "a"⟩] ∧
    handlerEvents true true "exit 3" none "a\n" "" 3 ≠ [] := by
  decide

/-- C2, amended: `quiet=True` suppresses exactly the announce banner of
`open` and the finish message of `close`, for every exit code; the per-line
display output of `_tail_stream` is unaffected by `quiet`, so a quiet run's
sink invocations are exactly the display events — zero only when `display`
is also disabled (or the streams have no non-blank line). -/
theorem C2_quiet_scope :
    (∀ (display : Bool) (cmd : String) (user : Option String)
        (outText errText : String) (rc : Int),
        handlerEvents true display cmd user outText errText rc =
          collectEvents display outText errText) ∧
    (∀ (cmd : String) (user : Option String) (outText errText : String)
        (rc : Int),
        handlerEvents true false cmd user outText errText rc = []) := by
  constructor
  · intro display cmd user outText errText rc
    simp [handlerEvents, openEvents, closeEvents]
  · intro cmd user outText errText rc
    simp [handlerEvents, openEvents, closeEvents, collectEvents]

/-- C3, code evaluated at the failing input: `bash_async` with
`user="root"` builds `Command(command)` without forwarding `user`, so the
invocation is the plain `["bash", "-c", "ls"]` and *not* the sudo-prefixed
vector — even though the `Command` constructor itself, given the user,
would produce the sudo-prefixed vector. -/
theorem C3_user_option_dropped :
    (bashAsyncCommand "ls" (some "root")).full = ["bash", "-c", "ls"] ∧
    (bashAsyncCommand "ls" (some "root")).full ≠
      ["sudo", "--user=root", "--login", "bash", "-c", "ls"] ∧
    (Command.make "ls" (some "root") none).full =
      ["sudo", "--user=root", "--login", "bash", "-c", "ls"] := by
  exact ⟨rfl, by decide, rfl⟩

/-- C4: the run raises iff `check` is enabled and the exit code is
non-zero; concretely, exit code 0 with `check=True` returns a result with
code 0, exit code 7 with `check=True` raises an error recording code 7,
and exit code 7 with `check=False` returns normally with code 7. -/
theorem C4_check_exit_code :
    (∀ (check : Bool) (rc : Int) (so se : Option String),
        (∃ e, finishRun check rc so se = .error e) ↔ (check = true ∧ rc ≠ 0)) ∧
    finishRun true 0 (some "") (some "") = .ok ⟨0, some "", some ""⟩ ∧
    finishRun true 7 (some "") (some "") =
      .error ⟨"Process exit with code 7"⟩ ∧
    finishRun false 7 (some "") (some "") = .ok ⟨7, some "", some ""⟩ := by
  refine ⟨?_, rfl, rfl, rfl⟩
  intro check rc so se
  constructor
  · rintro ⟨e, he⟩
    rw [finishRun] at he
    split at he
    · next hcond => exact hcond
    · cases he
  · rintro ⟨hc, hrc⟩
    subst hc
    exact ⟨_, by rw [finishRun]; rw [if_pos ⟨rfl, hrc⟩]⟩

/-- C5: with capture enabled the text returned by `_tail_stream` is the
full decoded stream content verbatim — chunking the stream as `readline`
does and concatenating the captured chunks restores the original text,
terminators and trailing blank lines included. -/
theorem C5_capture_roundtrip (symbol : String) (s : String) :
    (tail_stream true symbol (readlineChunks s)).1 = some s := by
  simp only [tail_stream, if_pos rfl]
  refine congrArg some (String.ext ?_)
  rw [tailLoop_fst_data]
  have hmap : (readlineChunks s).map String.data = readlineChunks.go s.data [] := by
    unfold readlineChunks
    rw [List.map_map]
    have hid : (String.data ∘ String.mk) = id := funext fun l => rfl
    rw [hid, List.map_id]
  rw [hmap, readlineChunks_go_flatten]
  rfl

/-- C6: the live display of a stream preserves interior blank lines and
drops trailing ones — the sink invocations are exactly one `line("")` per
blank chunk and one `line(strippedText)` per non-blank chunk, for every
chunk up to the last non-blank one, and nothing for the trailing blanks; in
particular `"a\n\nb\n"` yields `line("a")`, one blank line, `line("b")`. -/
theorem C6_display_blank_lines :
    (∀ (capture : Bool) (symbol : String) (chunks : List String),
        (tail_stream capture symbol chunks).2 = displaySpec symbol chunks) ∧
    (tail_stream true ">" (readlineChunks "a\n\nb\n")).2 =
      [⟨">", "a"⟩, ⟨">", ""⟩, ⟨">", "b"⟩] := by
  have hgen : ∀ (capture : Bool) (symbol : String) (chunks : List String),
      (tail_stream capture symbol chunks).2 = displaySpec symbol chunks := by
    intro capture symbol chunks
    simp only [tail_stream]
    rw [tailLoop_snd]
    by_cases hr : dropTrailingBlanks chunks = []
    · simp [hr, displaySpec]
    · simp [hr]
  exact ⟨hgen, by rw [hgen]; decide⟩

/-- C7: a command with no user and no directory yields exactly
`["bash", "-c", rawString]` with the raw text unchanged; the empty command
string is passed through unchanged, not rejected. -/
theorem C7_plain_invocation :
    (∀ s : String, (Command.make s none none).full = ["bash", "-c", s]) ∧
    (Command.make "" none none).full = ["bash", "-c", ""] ∧
    (Command.make "" none none).string = "" :=
  ⟨fun _ => rfl, rfl, rfl⟩

/-- C8, counterexample: a `bytes` value — neither text nor a path — is not
rejected with the invalid-argument-type error: empty bytes are quoted to
`"''"` with no error at all, and non-empty bytes fail inside `shlex.quote`
with a `TypeError`, a different error. -/
theorem C8_counterexample_bytes :
    quote (.bytes []) = .ok "''" ∧
    quote (.bytes [104]) = .error .typeError ∧
    QuoteError.typeError ≠ QuoteError.invalidArgumentType :=
  ⟨rfl, rfl, by decide⟩

/-- C8, amended: `quote` returns a shell-safe quoted string for every text
(`str`) or path value — shell word evaluation of the quoted string recovers
the original exactly — and rejects with the invalid-argument-type error
every value whose runtime type is not `str`, `bytes` or `Path`; `bytes`
values pass the type test and are never rejected with that error. -/
theorem C8_quote_contract :
    (∀ s : String, quote (.str s) = .ok (shlexQuote s) ∧
        evalWord (shlexQuote s) = some s) ∧
    (∀ p : String, quote (.path p) = .ok (shlexQuote p) ∧
        evalWord (shlexQuote p) = some p) ∧
    quote .other = .error .invalidArgumentType ∧
    (∀ b : List Nat, quote (.bytes b) ≠ .error .invalidArgumentType) := by
  refine ⟨fun s => ⟨rfl, evalWord_shlexQuote s⟩,
    fun p => ⟨rfl, evalWord_shlexQuote p⟩, rfl, ?_⟩
  intro b h
  rw [quote] at h
  split at h
  · exact Except.noConfusion h
  · simp at h

/-- C9, code evaluated at a failing configuration: with a non-empty stdin
payload the trace of `bash_async` performs the whole stdin
write–drain–close sequence strictly *before* the first read of the
stdout/stderr drains (`collect` is a bare coroutine, only awaited after the
stdin block), so the drains are not active before or concurrently with the
stdin write — contradicting the claimed concurrency. -/
theorem C9_drain_after_stdin :
    bashAsyncTrace (stdinSetup (.bytes [104])) =
      [.spawn, .stdinWrite, .stdinDrain, .stdinClose,
        .drainStart, .drainDone, .procWait] ∧
    (bashAsyncTrace (stdinSetup (.bytes [104]))).indexOf RunEvent.stdinClose <
      (bashAsyncTrace (stdinSetup (.bytes [104]))).indexOf RunEvent.drainStart := by
  decide

/-- C10: an empty stdin payload (bytes or text) yields exactly the stdin
setup of an absent payload — no pipe connected, nothing written or closed —
while any non-empty bytes payload connects a pipe and writes the bytes. -/
theorem C10_empty_stdin :
    stdinSetup (.bytes []) = stdinSetup .absent ∧
    stdinSetup (.str "") = stdinSetup .absent ∧
    stdinSetup .absent = ⟨false, none⟩ ∧
    (∀ (b : Nat) (bs : List Nat),
        stdinSetup (.bytes (b :: bs)) = ⟨true, some (b :: bs)⟩) := by
  refine ⟨rfl, rfl, rfl, ?_⟩
  intro b bs
  simp [stdinSetup, StdinPayload.encoded]

end Shellby
